import Mathlib

/-!
Verification development for the PromptGenix proof layer
(`src/verify.py`): the fingerprint function `sha256_from_text`, the
gateway fallback fetcher `fetch_proof_json`, and the hash comparison in
`verify_proof`, shallowly embedded in Lean 4.

Machine words are modelled as `Nat` with explicit `% 2 ^ 32`; bytes are
`Nat` values below 256; fallible steps return `Option`; the network is an
explicit oracle `String → WorldOutcome`.
-/

namespace PromptGenix

/-! ## Lowercase hex rendering (Python `hexdigest`) -/

/-- The sixteen lowercase hexadecimal digit characters. -/
def hexDigits : List Char := "0123456789abcdef".data

/-- Hex digit character for a value (values `< 16` select a digit;
Python's `hexdigest` only ever produces values below 16). -/
def hexChar : Nat → Char
  | 0 => '0' | 1 => '1' | 2 => '2' | 3 => '3'
  | 4 => '4' | 5 => '5' | 6 => '6' | 7 => '7'
  | 8 => '8' | 9 => '9' | 10 => 'a' | 11 => 'b'
  | 12 => 'c' | 13 => 'd' | 14 => 'e' | _ + 15 => 'f'

/-- Render a byte list as lowercase hex, two characters per byte,
mirroring Python's `bytes.hex` / `hashlib` `hexdigest` output. -/
def hexOfBytes : List Nat → List Char
  | [] => []
  | b :: bs => hexChar (b / 16) :: hexChar (b % 16) :: hexOfBytes bs

/-! ## SHA-256 (FIPS 180-4), the algorithm behind `hashlib.sha256` -/

/-- `2 ^ 32`, the word modulus of SHA-256. -/
def M32 : Nat := 4294967296

/-- Right rotation of a 32-bit word held in a `Nat`. -/
def rotr (n x : Nat) : Nat := x / 2 ^ n + x % 2 ^ n * 2 ^ (32 - n)

/-- Logical right shift. -/
def shr (n x : Nat) : Nat := x / 2 ^ n

/-- Small sigma-0 message schedule function. -/
def smallS0 (x : Nat) : Nat := rotr 7 x ^^^ rotr 18 x ^^^ shr 3 x

/-- Small sigma-1 message schedule function. -/
def smallS1 (x : Nat) : Nat := rotr 17 x ^^^ rotr 19 x ^^^ shr 10 x

/-- Big Sigma-0 compression function. -/
def bigS0 (x : Nat) : Nat := rotr 2 x ^^^ rotr 13 x ^^^ rotr 22 x

/-- Big Sigma-1 compression function. -/
def bigS1 (x : Nat) : Nat := rotr 6 x ^^^ rotr 11 x ^^^ rotr 25 x

/-- Choice function `Ch(x,y,z)`; complement is xor with all ones. -/
def chF (x y z : Nat) : Nat := (x &&& y) ^^^ ((x ^^^ 4294967295) &&& z)

/-- Majority function `Maj(x,y,z)`. -/
def majF (x y z : Nat) : Nat := (x &&& y) ^^^ (x &&& z) ^^^ (y &&& z)

/-- The 64 SHA-256 round constants of FIPS 180-4, written in decimal. -/
def K256 : List Nat :=
  [1116352408, 1899447441, 3049323471, 3921009573,
   961987163, 1508970993, 2453635748, 2870763221,
   3624381080, 310598401, 607225278, 1426881987,
   1925078388, 2162078206, 2614888103, 3248222580,
   3835390401, 4022224774, 264347078, 604807628,
   770255983, 1249150122, 1555081692, 1996064986,
   2554220882, 2821834349, 2952996808, 3210313671,
   3336571891, 3584528711, 113926993, 338241895,
   666307205, 773529912, 1294757372, 1396182291,
   1695183700, 1986661051, 2177026350, 2456956037,
   2730485921, 2820302411, 3259730800, 3345764771,
   3516065817, 3600352804, 4094571909, 275423344,
   430227734, 506948616, 659060556, 883997877,
   958139571, 1322822218, 1537002063, 1747873779,
   1955562222, 2024104815, 2227730452, 2361852424,
   2428436474, 2756734187, 3204031479, 3329325298]

/-- Working state: the eight 32-bit hash words. -/
structure Hv where
  a : Nat
  b : Nat
  c : Nat
  d : Nat
  e : Nat
  f : Nat
  g : Nat
  h : Nat

/-- Initial hash value H(0) of FIPS 180-4, written in decimal. -/
def initH : Hv :=
  ⟨1779033703, 3144134277, 1013904242, 2773480762,
   1359893119, 2600822924, 528734635, 1541459225⟩

/-- Big-endian 8-byte rendering of the message bit length. -/
def lenBE (n : Nat) : List Nat :=
  [n / 2 ^ 56 % 256, n / 2 ^ 48 % 256, n / 2 ^ 40 % 256, n / 2 ^ 32 % 256,
   n / 2 ^ 24 % 256, n / 2 ^ 16 % 256, n / 2 ^ 8 % 256, n % 256]

/-- SHA-256 padding: append `0x80`, zero bytes to 56 mod 64, then the
bit length as 8 big-endian bytes. -/
def padMsg (ms : List Nat) : List Nat :=
  ms ++ [0x80] ++ List.replicate ((64 - (ms.length + 9) % 64) % 64) 0
     ++ lenBE (8 * ms.length)

/-- Group bytes into big-endian 32-bit words. -/
def toWords : List Nat → List Nat
  | b0 :: b1 :: b2 :: b3 :: rest =>
      (((b0 * 256 + b1) * 256 + b2) * 256 + b3) :: toWords rest
  | _ => []

/-- Split a byte list into 64-byte blocks (fuel-indexed recursion). -/
def chunk64 : Nat → List Nat → List (List Nat)
  | 0, _ => []
  | _, [] => []
  | fuel + 1, l => l.take 64 :: chunk64 fuel (l.drop 64)

/-- Extend the 16-word block schedule by `n` further words. -/
def extendW : Nat → List Nat → List Nat
  | 0, ws => ws
  | n + 1, ws =>
      let w2 := ws.getD (ws.length - 2) 0
      let w7 := ws.getD (ws.length - 7) 0
      let w15 := ws.getD (ws.length - 15) 0
      let w16 := ws.getD (ws.length - 16) 0
      extendW n (ws ++ [(smallS1 w2 + w7 + smallS0 w15 + w16) % M32])

/-- One compression round with a (constant, schedule word) pair. -/
def roundStep (st : Hv) (kw : Nat × Nat) : Hv :=
  let t1 := (st.h + bigS1 st.e + chF st.e st.f st.g + kw.1 + kw.2) % M32
  let t2 := (bigS0 st.a + majF st.a st.b st.c) % M32
  ⟨(t1 + t2) % M32, st.a, st.b, st.c, (st.d + t1) % M32, st.e, st.f, st.g⟩

/-- Process one 64-byte block. -/
def compress (st : Hv) (block : List Nat) : Hv :=
  let st1 := (K256.zip (extendW 48 (toWords block))).foldl roundStep st
  ⟨(st.a + st1.a) % M32, (st.b + st1.b) % M32, (st.c + st1.c) % M32,
   (st.d + st1.d) % M32, (st.e + st1.e) % M32, (st.f + st1.f) % M32,
   (st.g + st1.g) % M32, (st.h + st1.h) % M32⟩

/-- Big-endian 4-byte rendering of a 32-bit word. -/
def wordBE (w : Nat) : List Nat :=
  [w / 2 ^ 24 % 256, w / 2 ^ 16 % 256, w / 2 ^ 8 % 256, w % 256]

/-- SHA-256 digest (32 bytes) of a byte message. -/
def sha256Bytes (ms : List Nat) : List Nat :=
  let p := padMsg ms
  let st := (chunk64 p.length p).foldl compress initH
  wordBE st.a ++ wordBE st.b ++ wordBE st.c ++ wordBE st.d ++
  wordBE st.e ++ wordBE st.f ++ wordBE st.g ++ wordBE st.h

/-! ## UTF-8 (Python `str.encode("utf-8")` / `bytes.decode("utf-8")`) -/

/-- UTF-8 encoding of one Unicode scalar value. -/
def encChar (c : Char) : List Nat :=
  let n := c.toNat
  if n < 128 then [n]
  else if n < 2048 then [192 + n / 64, 128 + n % 64]
  else if n < 65536 then [224 + n / 4096, 128 + n / 64 % 64, 128 + n % 64]
  else [240 + n / 262144, 128 + n / 4096 % 64, 128 + n / 64 % 64, 128 + n % 64]

/-- UTF-8 encoding of a string, as a byte list. -/
def utf8Encode (s : String) : List Nat := s.data.flatMap encChar

/-- The fingerprint function, from `verify.py` line 24: SHA-256 of the
UTF-8 encoding, rendered as lowercase hex. -/
def sha256_from_text (text : String) : String :=
  String.mk (hexOfBytes (sha256Bytes (utf8Encode text)))

/-- Strict UTF-8 decoding of a byte list into characters, as performed by
Python's `bytes.decode("utf-8")`: rejects stray continuation bytes,
overlong forms, surrogates and values above U+10FFFF. Fuel-indexed; each
step consumes at least one byte. -/
def utf8DecodeAux : Nat → List Nat → Option (List Char)
  | _, [] => some []
  | 0, _ :: _ => none
  | fuel + 1, b :: bs =>
    if b < 128 then
      (utf8DecodeAux fuel bs).map (Char.ofNat b :: ·)
    else if b < 194 then none
    else if b < 224 then
      match bs with
      | b1 :: bs1 =>
        if 128 ≤ b1 ∧ b1 < 192 then
          (utf8DecodeAux fuel bs1).map (Char.ofNat ((b - 192) * 64 + (b1 - 128)) :: ·)
        else none
      | _ => none
    else if b < 240 then
      match bs with
      | b1 :: b2 :: bs2 =>
        if (128 ≤ b1 ∧ b1 < 192) ∧ (128 ≤ b2 ∧ b2 < 192)
            ∧ (b = 224 → 160 ≤ b1) ∧ (b = 237 → b1 < 160) then
          (utf8DecodeAux fuel bs2).map
            (Char.ofNat ((b - 224) * 4096 + (b1 - 128) * 64 + (b2 - 128)) :: ·)
        else none
      | _ => none
    else if b < 245 then
      match bs with
      | b1 :: b2 :: b3 :: bs3 =>
        if (128 ≤ b1 ∧ b1 < 192) ∧ (128 ≤ b2 ∧ b2 < 192) ∧ (128 ≤ b3 ∧ b3 < 192)
            ∧ (b = 240 → 144 ≤ b1) ∧ (b = 244 → b1 < 144) then
          (utf8DecodeAux fuel bs3).map
            (Char.ofNat ((b - 240) * 262144 + (b1 - 128) * 4096
              + (b2 - 128) * 64 + (b3 - 128)) :: ·)
        else none
      | _ => none
    else none

/-- Decode a byte list as a UTF-8 string; `none` models
`UnicodeDecodeError`. -/
def utf8Decode (bs : List Nat) : Option String :=
  (utf8DecodeAux bs.length bs).map String.mk

/-! ## Python-style string helpers -/

/-- Whether `p` occurs at the start of `s` (character lists). -/
def leadsWith : List Char → List Char → Bool
  | [], _ => true
  | _ :: _, [] => false
  | p :: ps, c :: cs => p == c && leadsWith ps cs

/-- Python `str.replace`: replace non-overlapping occurrences of `pat`
left to right, continuing after each replacement. Fuel-indexed. -/
def listReplace : Nat → List Char → List Char → List Char → List Char
  | 0, s, _, _ => s
  | _, [], _, _ => []
  | fuel + 1, c :: cs, pat, rep =>
    if pat ≠ [] ∧ leadsWith pat (c :: cs) then
      rep ++ listReplace fuel (List.drop pat.length (c :: cs)) pat rep
    else
      c :: listReplace fuel cs pat rep

/-- Python `str.replace` on strings. -/
def pyReplace (s pat rep : String) : String :=
  String.mk (listReplace s.data.length s.data pat.data rep.data)

/-- Python `str.rstrip("/")`: drop trailing slash characters. -/
def rstripSlash (s : String) : String :=
  String.mk (List.reverse (List.dropWhile (· == '/') s.data.reverse))

/-- Python `sep.join(parts)`. -/
def pyJoin (sep : String) : List String → String
  | [] => ""
  | [x] => x
  | x :: y :: xs => x ++ sep ++ pyJoin sep (y :: xs)

/-- Lowercase every character of a string. -/
def lowerStr (s : String) : String := String.mk (s.data.map Char.toLower)

/-- `str.format` specialised to patterns over the placeholders used in
`verify.py`: a single left-to-right pass substituting the two named
fields, never re-scanning substituted text. Fuel-indexed. -/
def formatBaseTx : Nat → List Char → List Char → List Char → List Char
  | 0, s, _, _ => s
  | _, [], _, _ => []
  | fuel + 1, c :: cs, base, tx =>
    if leadsWith "{base}".data (c :: cs) then
      base ++ formatBaseTx fuel (List.drop 6 (c :: cs)) base tx
    else if leadsWith "{tx}".data (c :: cs) then
      tx ++ formatBaseTx fuel (List.drop 4 (c :: cs)) base tx
    else
      c :: formatBaseTx fuel cs base tx

/-- Apply a `verify.py` URL pattern to a cleaned base and a TX id. -/
def formatPattern (pat base tx : String) : String :=
  String.mk (formatBaseTx pat.data.length pat.data base.data tx.data)

/-! ## JSON values and a model of `json.loads` -/

/-- JSON values as produced by `json.loads`: objects become association
lists (Python dicts), arrays lists, numbers integers (`verify.py` only
ever reads strings out of records; non-integer numbers are outside this
model and are rejected by the parser). -/
inductive Json where
  | null : Json
  | bool : Bool → Json
  | num : Int → Json
  | str : String → Json
  | arr : List Json → Json
  | obj : List (String × Json) → Json

/-- Whether a JSON value is an object (a structured record). -/
def Json.isObj : Json → Bool
  | .obj _ => true
  | _ => false

/-- The left-brace character, written by code point. -/
def lbrace : Char := Char.ofNat 123

/-- The right-brace character, written by code point. -/
def rbrace : Char := Char.ofNat 125

/-- The double-quote character, written by code point. -/
def dquote : Char := Char.ofNat 34

/-- The backslash character, written by code point. -/
def bslashC : Char := Char.ofNat 92

/-- JSON whitespace. -/
def isJsonWs (c : Char) : Bool :=
  c == ' ' || c == '\t' || c == '\n' || c == '\r'

/-- Skip JSON whitespace. -/
def skipWs (s : List Char) : List Char := s.dropWhile isJsonWs

/-- Parse the body of a JSON string literal (after the opening quote),
supporting the simple escapes; returns the content and the rest after
the closing quote. -/
def parseStrBody : List Char → Option (List Char × List Char)
  | [] => none
  | c :: cs =>
    if c == dquote then some ([], cs)
    else if c == bslashC then
      match cs with
      | [] => none
      | e :: cs1 =>
        let dec : Option Char :=
          if e == dquote then some dquote
          else if e == bslashC then some bslashC
          else if e == '/' then some '/'
          else if e == 'b' then some (Char.ofNat 8)
          else if e == 'f' then some (Char.ofNat 12)
          else if e == 'n' then some '\n'
          else if e == 'r' then some '\r'
          else if e == 't' then some '\t'
          else none
        match dec with
        | some d => (parseStrBody cs1).map (fun r => (d :: r.1, r.2))
        | none => none
    else if c.toNat < 32 then none
    else (parseStrBody cs).map (fun r => (c :: r.1, r.2))

/-- Parse an unsigned decimal integer literal (JSON grammar: no leading
zeros except the literal `0`). Returns the value and the rest. -/
def parseDigits (s : List Char) : Option (Nat × List Char) :=
  let ds := s.takeWhile Char.isDigit
  let rest := s.dropWhile Char.isDigit
  match ds with
  | [] => none
  | ['0'] => some (0, rest)
  | d :: _ =>
    if d == '0' then none
    else some (ds.foldl (fun acc c => acc * 10 + (c.toNat - 48)) 0, rest)

mutual

/-- Recursive-descent JSON value parser, fuel-indexed. Models
`json.loads` for the payload shapes `verify.py` handles: objects,
arrays, strings with simple escapes, integers, booleans and null
(floats and `\u` escapes are outside the model and rejected). -/
def parseVal : Nat → List Char → Option (Json × List Char)
  | 0, _ => none
  | fuel + 1, s =>
    match skipWs s with
    | [] => none
    | c :: cs =>
      if c == 'n' then
        if leadsWith "ull".data cs then some (.null, cs.drop 3) else none
      else if c == 't' then
        if leadsWith "rue".data cs then some (.bool true, cs.drop 3) else none
      else if c == 'f' then
        if leadsWith "alse".data cs then some (.bool false, cs.drop 4) else none
      else if c == dquote then
        (parseStrBody cs).map (fun r => (.str (String.mk r.1), r.2))
      else if c == '-' then
        (parseDigits cs).bind fun r =>
          match r.2 with
          | d :: _ =>
            if d == '.' || d == 'e' || d == 'E' then none
            else some (.num (-(r.1 : Int)), r.2)
          | [] => some (.num (-(r.1 : Int)), [])
      else if '0' ≤ c ∧ c ≤ '9' then
        (parseDigits (c :: cs)).bind fun r =>
          match r.2 with
          | d :: _ =>
            if d == '.' || d == 'e' || d == 'E' then none
            else some (.num (r.1 : Int), r.2)
          | [] => some (.num (r.1 : Int), [])
      else if c == '[' then
        match skipWs cs with
        | ']' :: rest => some (.arr [], rest)
        | _ => parseArrItems fuel cs
      else if c == lbrace then
        match skipWs cs with
        | d :: rest =>
          if d == rbrace then some (.obj [], rest)
          else parseObjItems fuel cs
        | [] => none
      else none

/-- Parse the comma-separated items of a JSON array (after `[`). -/
def parseArrItems : Nat → List Char → Option (Json × List Char)
  | 0, _ => none
  | fuel + 1, s =>
    (parseVal fuel s).bind fun r =>
      match skipWs r.2 with
      | ',' :: rest =>
        (parseArrItems fuel rest).bind fun r2 =>
          match r2.1 with
          | .arr items => some (.arr (r.1 :: items), r2.2)
          | _ => none
      | ']' :: rest => some (.arr [r.1], rest)
      | _ => none

/-- Parse the comma-separated members of a JSON object (after the
opening brace). -/
def parseObjItems : Nat → List Char → Option (Json × List Char)
  | 0, _ => none
  | fuel + 1, s =>
    match skipWs s with
    | q :: cs =>
      if q == dquote then
        (parseStrBody cs).bind fun k =>
          match skipWs k.2 with
          | ':' :: vrest =>
            (parseVal fuel vrest).bind fun r =>
              match skipWs r.2 with
              | ',' :: rest =>
                (parseObjItems fuel rest).bind fun r2 =>
                  match r2.1 with
                  | .obj items => some (.obj ((String.mk k.1, r.1) :: items), r2.2)
                  | _ => none
              | d :: rest =>
                if d == rbrace then some (.obj [(String.mk k.1, r.1)], rest)
                else none
              | _ => none
          | _ => none
      else none
    | [] => none

end

/-- `json.loads`: parse a complete JSON document, requiring only
whitespace after the value; `none` models `json.JSONDecodeError`. -/
def jsonLoads (s : String) : Option Json :=
  (parseVal (s.data.length + 1) s.data).bind fun r =>
    if skipWs r.2 = [] then some r.1 else none

/-- Python `dict.get` on a decoded JSON object: later duplicate keys
overwrite earlier ones in a Python dict, so the last binding wins. -/
def dictGet (k : String) (l : List (String × Json)) : Option Json :=
  (l.reverse.find? (fun p => p.1 == k)).map (·.2)

/-- Python `==` between a fetched JSON value (or `None` for a missing
key) and a local digest string: only a string with the same content
compares equal. -/
def pyEqStr : Option Json → String → Bool
  | some (.str t), s => t == s
  | _, _ => false

/-! ## Base64 (RFC 4648) encoding, for relating wrapped payloads -/

/-- The base64 alphabet. -/
def b64Digits : List Char :=
  "ABCDEFGHIJKLMNOPQRSTUVWXYZabcdefghijklmnopqrstuvwxyz0123456789+/".data

/-- Character for a 6-bit value. -/
def b64Char (n : Nat) : Char := b64Digits.getD n 'A'

/-- RFC 4648 base64 encoding of a byte list. -/
def base64Chars : List Nat → List Char
  | [] => []
  | [b0] =>
      [b64Char (b0 / 4), b64Char (b0 % 4 * 16), '=', '=']
  | [b0, b1] =>
      [b64Char (b0 / 4), b64Char (b0 % 4 * 16 + b1 / 16), b64Char (b1 % 16 * 4), '=']
  | b0 :: b1 :: b2 :: bs =>
      b64Char (b0 / 4) :: b64Char (b0 % 4 * 16 + b1 / 16)
        :: b64Char (b1 % 16 * 4 + b2 / 64) :: b64Char (b2 % 64) :: base64Chars bs

/-- Base64 encoding of a string's UTF-8 bytes, as
`base64.b64encode(s.encode()).decode()` would produce. -/
def base64OfString (s : String) : String := String.mk (base64Chars (utf8Encode s))

/-! ## The Proof Fetcher (`fetch_proof_json`, `verify.py` lines 50-106)

The network is an oracle `String → WorldOutcome` mapping each URL to the
outcome of `_try_fetch`: either a caught transport exception
(`urllib.error.HTTPError` / `urllib.error.URLError`, carried as its
`repr` string) or a 2xx response body (raw bytes, before the
`.decode("utf-8")` on line 47). The JSON parser is a parameter so that
theorems about the loop hold for any parser behaviour. -/

/-- Outcome of one HTTP GET. -/
inductive WorldOutcome where
  | transport : String → WorldOutcome
  | body : List Nat → WorldOutcome

/-- The caught exception recorded in `last_error`. -/
inductive LastErr where
  | transportErr : String → LastErr
  | jsonError : String → LastErr

/-- A rendering of Python's `repr(last_error)`; the transport case
carries the repr directly, the `json.JSONDecodeError` case is rendered
from the offending body. -/
def reprLastErr : LastErr → String
  | .transportErr r => r
  | .jsonError b => "JSONDecodeError(" ++ b ++ ")"

/-- Classified outcome of lines 91-99 for one URL: a successful JSON
decode, a caught soft failure, or the uncaught `UnicodeDecodeError`
raised by `.decode("utf-8")` on a non-UTF-8 body (not in the `except`
tuple on line 96). -/
inductive AttemptOut where
  | success : Json → AttemptOut
  | soft : LastErr → AttemptOut
  | abort : AttemptOut

/-- Whether an attempt outcome is a caught soft failure. -/
def AttemptOut.isSoft : AttemptOut → Bool
  | .soft _ => true
  | _ => false

/-- Whether an attempt outcome is the uncaught abort. -/
def AttemptOut.isAbort : AttemptOut → Bool
  | .abort => true
  | _ => false

/-- The soft error carried by an attempt outcome (junk otherwise). -/
def AttemptOut.softErr : AttemptOut → LastErr
  | .soft e => e
  | _ => .transportErr ""

/-- One iteration of the `try` block: fetch, decode bytes as UTF-8,
parse as JSON. -/
def attempt (world : String → WorldOutcome) (jl : String → Option Json)
    (url : String) : AttemptOut :=
  match world url with
  | .transport r => .soft (.transportErr r)
  | .body bs =>
    match utf8Decode bs with
    | none => .abort
    | some body =>
      match jl body with
      | some j => .success j
      | none => .soft (.jsonError body)

/-- The gateway bases configured in `verify.py` lines 35-39. -/
def DEFAULT_GATEWAYS : List String :=
  ["https://arweave.net", "https://arweave.net/tx", "https://ar-io.net"]

/-- The candidate URL patterns of `verify.py` lines 72-76. -/
def url_patterns : List String :=
  ["{base}/{tx}", "{base}/tx/{tx}/data", "{base}/{tx}/data"]

/-- URL construction of line 84: substitute the pattern against the
slash-stripped base and the TX id, then globally replace `"//tx"` with
`"/tx"`. -/
def mkUrl (base tx pattern : String) : String :=
  pyReplace (formatPattern pattern (rstripSlash base) tx) "//tx" "/tx"

/-- The ordered candidate URL list: every pattern against every base, in
loop order (lines 81-84), before deduplication. -/
def candidateUrls (gateways : List String) (tx : String) : List String :=
  gateways.flatMap (fun base => url_patterns.map (fun p => mkUrl base tx p))

/-- The `RuntimeError` message of lines 102-105: the TX id, every tried
URL joined by newline-indent, and the repr of the last error if any. -/
def notFoundMsg (tx : String) (tried : List String) (le : Option LastErr) : String :=
  "Failed to fetch proof JSON for TX ID " ++ tx ++ ". Tried URLs:\n  "
    ++ pyJoin "\n  " tried
    ++ (match le with
        | none => ""
        | some e => "\nLast error: " ++ reprLastErr e)

/-- Result of `fetch_proof_json`: a parsed JSON value, the final
`RuntimeError`, or the uncaught `UnicodeDecodeError`. -/
inductive FetchResult where
  | ok : Json → FetchResult
  | runtimeError : String → FetchResult
  | unicodeError : FetchResult

/-- Whether a fetch result is a successful return. -/
def FetchResult.isOk : FetchResult → Bool
  | .ok _ => true
  | _ => false

/-- Whether a fetch result is the `RuntimeError` raised on exhaustion. -/
def FetchResult.isRuntimeError : FetchResult → Bool
  | .runtimeError _ => true
  | _ => false

/-- Whether a fetch result is the uncaught `UnicodeDecodeError`. -/
def FetchResult.isUnicodeErr : FetchResult → Bool
  | .unicodeError => true
  | _ => false

/-- The candidate loop of lines 81-106 over a remaining URL list, with
the `tried_urls` accumulator (also used for the duplicate skip on line
87) and `last_error`. Returns the result together with the final
`tried_urls`, so that which URLs were attempted is observable. -/
def fetchRun (world : String → WorldOutcome) (jl : String → Option Json)
    (tx : String) :
    List String → List String → Option LastErr → FetchResult × List String
  | [], tried, le => (.runtimeError (notFoundMsg tx tried le), tried)
  | url :: rest, tried, le =>
    if url ∈ tried then fetchRun world jl tx rest tried le
    else
      match attempt world jl url with
      | .success j => (.ok j, tried ++ [url])
      | .abort => (.unicodeError, tried ++ [url])
      | .soft e => fetchRun world jl tx rest (tried ++ [url]) (some e)

/-- `fetch_proof_json` with its result and the tried-URL trace. -/
def fetchProofRun (world : String → WorldOutcome) (jl : String → Option Json)
    (gateways : List String) (tx : String) : FetchResult × List String :=
  fetchRun world jl tx (candidateUrls gateways tx) [] none

/-- `fetch_proof_json` (lines 50-106). -/
def fetch_proof_json (world : String → WorldOutcome) (jl : String → Option Json)
    (gateways : List String) (tx : String) : FetchResult :=
  (fetchProofRun world jl gateways tx).1

/-! ## The Verifier (`verify_proof`, `verify.py` lines 113-157) -/

/-- The verification report dictionary of lines 140-157. -/
structure Report where
  tx_id : String
  verified : Bool
  prompt_ok : Bool
  output_ok : Bool
  stored_prompt_hash : Option Json
  local_prompt_hash : String
  stored_output_hash : Option Json
  local_output_hash : String
  proof_metadata : List (String × Option Json)

/-- Lines 125-157: extract stored hashes from the fetched record,
recompute local digests, compare with Python `==`, and assemble the
report. -/
def buildReport (proof : List (String × Json)) (tx prompt output : String) :
    Report :=
  let stored_prompt_hash := dictGet "prompt_hash" proof
  let stored_output_hash := dictGet "output_hash" proof
  let local_prompt_hash := sha256_from_text prompt
  let local_output_hash := sha256_from_text output
  let prompt_ok := pyEqStr stored_prompt_hash local_prompt_hash
  let output_ok := pyEqStr stored_output_hash local_output_hash
  { tx_id := tx
    verified := prompt_ok && output_ok
    prompt_ok := prompt_ok
    output_ok := output_ok
    stored_prompt_hash := stored_prompt_hash
    local_prompt_hash := local_prompt_hash
    stored_output_hash := stored_output_hash
    local_output_hash := local_output_hash
    proof_metadata :=
      [("project", dictGet "project" proof),
       ("proof_type", dictGet "proof_type" proof),
       ("ai_model", dictGet "ai_model" proof),
       ("created_at", dictGet "created_at" proof),
       ("author", dictGet "author" proof),
       ("organization", dictGet "organization" proof)] }

/-- Outcome of a `verify_proof` call: a returned report, or a
propagated exception (`.get` on a non-dict raises `AttributeError`). -/
inductive VerifyOutcome where
  | report : Report → VerifyOutcome
  | attributeError : VerifyOutcome
  | runtimeError : String → VerifyOutcome
  | unicodeError : VerifyOutcome

/-- `verify_proof` (lines 113-157): fetch with the default gateways,
then compare; fetch exceptions propagate. -/
def verify_proof (world : String → WorldOutcome) (jl : String → Option Json)
    (tx prompt output : String) : VerifyOutcome :=
  match fetch_proof_json world jl DEFAULT_GATEWAYS tx with
  | .ok (.obj fields) => .report (buildReport fields tx prompt output)
  | .ok _ => .attributeError
  | .runtimeError m => .runtimeError m
  | .unicodeError => .unicodeError

/-! ## Bookkeeping functions for the candidate loop -/

/-- First-occurrence deduplication relative to already-seen URLs. -/
def dedupFirstAux (seen : List String) : List String → List String
  | [] => []
  | x :: xs =>
    if x ∈ seen then dedupFirstAux seen xs
    else x :: dedupFirstAux (seen ++ [x]) xs

/-- First-occurrence deduplication of a URL list: exactly the URLs the
loop attempts, in order. -/
def dedupFirst (l : List String) : List String := dedupFirstAux [] l

/-- The `tried_urls` accumulator after scanning a list of candidates. -/
def scanTried (tried : List String) : List String → List String
  | [] => tried
  | u :: us =>
    if u ∈ tried then scanTried tried us
    else scanTried (tried ++ [u]) us

/-- The `last_error` accumulator after scanning soft-failing
candidates. -/
def scanErr (world : String → WorldOutcome) (jl : String → Option Json)
    (tried : List String) (le : Option LastErr) : List String → Option LastErr
  | [] => le
  | u :: us =>
    if u ∈ tried then scanErr world jl tried le us
    else scanErr world jl (tried ++ [u]) (some ((attempt world jl u).softErr)) us

/-- The full deduplicated attempt list for a gateway configuration. -/
def triedAll (gateways : List String) (tx : String) : List String :=
  dedupFirst (candidateUrls gateways tx)

/-- The last soft error when every candidate soft-fails: the error of
the last URL actually attempted. -/
def lastSoftErr (world : String → WorldOutcome) (jl : String → Option Json)
    (gateways : List String) (tx : String) : Option LastErr :=
  match (triedAll gateways tx).getLast? with
  | none => none
  | some v => some ((attempt world jl v).softErr)

/-! ## Concrete network oracles used as test worlds -/

/-- Every URL answers with the raw JSON object body. -/
def wRawObj : String → WorldOutcome := fun _ => .body (utf8Encode "\x7b\x7d")

/-- Every URL answers with the base64-wrapped JSON object body. -/
def wB64 : String → WorldOutcome := fun _ => .body (utf8Encode "e30=")

/-- Every URL fails with a transport error. -/
def wTransport : String → WorldOutcome := fun _ => .transport "URLError(timeout)"

/-- Every URL answers with a single `0xFF` byte, which is not UTF-8. -/
def wBadBytes : String → WorldOutcome := fun _ => .body [255]

/-- Every URL answers with a JSON array body. -/
def wArr : String → WorldOutcome := fun _ => .body (utf8Encode "[1]")

/-- URLs on host `a` answer with non-UTF-8 bytes; all others answer
with a JSON object body. -/
def wMixed : String → WorldOutcome := fun url =>
  if leadsWith "https://a".data url.data then .body [255]
  else .body (utf8Encode "\x7b\x7d")

/-- The first candidate URL fails with a transport error; all others
answer with a JSON object body. -/
def wFirstFails : String → WorldOutcome := fun url =>
  if url == "https://g/t" then .transport "URLError(refused)"
  else .body (utf8Encode "\x7b\x7d")

/-- A stored value that is absent, the empty string, or a case variant
of (but not equal to) the digest. -/
def missingLike (v : Option Json) (d : String) : Prop :=
  v = none ∨ v = some (.str "")
    ∨ ∃ s, v = some (.str s) ∧ lowerStr s = lowerStr d ∧ s ≠ d

/-! ## Helper lemmas -/

/-- String append acts as list append on the character data. -/
theorem strDataAppend (s t : String) : (s ++ t).data = s.data ++ t.data := rfl

/-- Every hex digit character belongs to the lowercase hex alphabet. -/
theorem hexChar_mem (n : Nat) : hexChar n ∈ hexDigits := by
  unfold hexChar
  split <;> decide

/-- Length of the hex rendering. -/
theorem hexOfBytes_length (bs : List Nat) :
    (hexOfBytes bs).length = 2 * bs.length := by
  induction bs with
  | nil => rfl
  | cons b bs ih => simp [hexOfBytes, ih]; omega

/-- Every character of a hex rendering is a lowercase hex digit. -/
theorem hexOfBytes_mem (bs : List Nat) (c : Char) :
    c ∈ hexOfBytes bs → c ∈ hexDigits := by
  induction bs with
  | nil => intro h; simp [hexOfBytes] at h
  | cons b bs ih =>
    intro h
    simp only [hexOfBytes, List.mem_cons] at h
    rcases h with h | h | h
    · rw [h]; exact hexChar_mem _
    · rw [h]; exact hexChar_mem _
    · exact ih h

/-- A SHA-256 digest is 32 bytes. -/
theorem sha256Bytes_length (ms : List Nat) : (sha256Bytes ms).length = 32 := by
  simp [sha256Bytes, wordBE]

/-- A rendered fingerprint is 64 characters. -/
theorem sha256_from_text_length (t : String) :
    (sha256_from_text t).length = 64 := by
  show (hexOfBytes (sha256Bytes (utf8Encode t))).length = 64
  rw [hexOfBytes_length, sha256Bytes_length]

/-- A rendered fingerprint is never the empty string. -/
theorem sha256_from_text_ne_empty (t : String) : "" ≠ sha256_from_text t := by
  intro h
  have := sha256_from_text_length t
  rw [← h] at this
  simp [String.length] at this

/-- Known-answer check of the SHA-256 embedding against the FIPS 180-4
test vector for the empty message. -/
theorem sha256_vector_empty :
    sha256_from_text "" =
      "e3b0c44298fc1c149afbf4c8996fb92427ae41e4649b934ca495991b7852b855" := by
  rfl

/-- Known-answer check against the FIPS 180-4 test vector for `"abc"`. -/
theorem sha256_vector_abc :
    sha256_from_text "abc" =
      "ba7816bf8f01cfea414140de5dae2223b00361a396177a9cb410ff61f20015ad" := by
  rfl

/-- Python `==` against the digest is false for any such stored value. -/
theorem pyEqStr_missingLike (v : Option Json) (t : String)
    (h : missingLike v (sha256_from_text t)) :
    pyEqStr v (sha256_from_text t) = false := by
  rcases h with h | h | ⟨s, h, _, hne⟩
  · rw [h]; rfl
  · rw [h]
    simp only [pyEqStr]
    exact beq_eq_false_iff_ne.mpr (sha256_from_text_ne_empty t)
  · rw [h]
    simp only [pyEqStr]
    exact beq_eq_false_iff_ne.mpr hne

/-- The `tried_urls` scan is append plus first-occurrence dedup. -/
theorem scanTried_eq (us : List String) :
    ∀ tried, scanTried tried us = tried ++ dedupFirstAux tried us := by
  induction us with
  | nil => intro tried; simp [scanTried, dedupFirstAux]
  | cons u us ih =>
    intro tried
    by_cases hmem : u ∈ tried
    · simp [scanTried, dedupFirstAux, hmem, ih]
    · simp [scanTried, dedupFirstAux, hmem, ih (tried ++ [u])]

/-- Membership in the first-occurrence dedup. -/
theorem dedupFirstAux_mem (us : List String) :
    ∀ seen x, x ∈ dedupFirstAux seen us ↔ x ∈ us ∧ x ∉ seen := by
  induction us with
  | nil => intro seen x; simp [dedupFirstAux]
  | cons u us ih =>
    intro seen x
    by_cases hmem : u ∈ seen
    · rw [dedupFirstAux, if_pos hmem, ih]
      constructor
      · rintro ⟨hx, hs⟩; exact ⟨List.mem_cons_of_mem _ hx, hs⟩
      · rintro ⟨hx, hs⟩
        rcases List.mem_cons.mp hx with h | h
        · exact absurd (h ▸ hmem) hs
        · exact ⟨h, hs⟩
    · rw [dedupFirstAux, if_neg hmem]
      constructor
      · intro hx
        rcases List.mem_cons.mp hx with h | h
        · exact ⟨h ▸ List.mem_cons_self u us, h ▸ hmem⟩
        · rcases (ih _ _).mp h with ⟨h1, h2⟩
          refine ⟨List.mem_cons_of_mem _ h1, fun hs => h2 ?_⟩
          simp [hs]
      · rintro ⟨hx, hs⟩
        by_cases hxu : x = u
        · exact hxu ▸ List.mem_cons_self u _
        · rcases List.mem_cons.mp hx with h | h
          · exact absurd h hxu
          · exact List.mem_cons_of_mem _ ((ih _ _).mpr ⟨h, by simp [hs, hxu]⟩)

/-- The first-occurrence dedup has no duplicates. -/
theorem dedupFirstAux_nodup (us : List String) :
    ∀ seen, (dedupFirstAux seen us).Nodup := by
  induction us with
  | nil => intro seen; simp [dedupFirstAux]
  | cons u us ih =>
    intro seen
    by_cases hmem : u ∈ seen
    · rw [dedupFirstAux, if_pos hmem]; exact ih seen
    · rw [dedupFirstAux, if_neg hmem]
      refine List.nodup_cons.mpr ⟨fun hu => ?_, ih _⟩
      rcases (dedupFirstAux_mem us _ u).mp hu with ⟨_, h2⟩
      simp at h2

/-- The `last_error` scan records the error of the last newly attempted
URL. -/
theorem scanErr_eq (world : String → WorldOutcome) (jl : String → Option Json)
    (us : List String) :
    ∀ tried le, scanErr world jl tried le us =
      match (dedupFirstAux tried us).getLast? with
      | none => le
      | some v => some ((attempt world jl v).softErr) := by
  induction us with
  | nil => intro tried le; simp [scanErr, dedupFirstAux]
  | cons u us ih =>
    intro tried le
    by_cases hmem : u ∈ tried
    · rw [scanErr, if_pos hmem, dedupFirstAux, if_pos hmem, ih]
    · rw [scanErr, if_neg hmem, dedupFirstAux, if_neg hmem,
        ih (tried ++ [u]) (some ((attempt world jl u).softErr))]
      cases hl : (dedupFirstAux (tried ++ [u]) us).getLast? with
      | none =>
        have : dedupFirstAux (tried ++ [u]) us = [] := by
          cases h : dedupFirstAux (tried ++ [u]) us with
          | nil => rfl
          | cons a l => rw [h] at hl; simp [List.getLast?_concat] at hl
        rw [this]
        rfl
      | some v =>
        have hne : dedupFirstAux (tried ++ [u]) us ≠ [] := by
          intro h; rw [h] at hl; simp at hl
        cases h : dedupFirstAux (tried ++ [u]) us with
        | nil => exact absurd h hne
        | cons a l =>
          rw [h] at hl
          simp only [List.getLast?_cons_cons]
          rw [hl]

/-- Scanning a run of soft-failing candidates just accumulates
`tried_urls` and `last_error`. -/
theorem fetchRun_soft_scan (world : String → WorldOutcome)
    (jl : String → Option Json) (tx : String) (us : List String) :
    ∀ rest tried le, (∀ v ∈ us, (attempt world jl v).isSoft = true) →
      fetchRun world jl tx (us ++ rest) tried le
        = fetchRun world jl tx rest (scanTried tried us)
            (scanErr world jl tried le us) := by
  induction us with
  | nil => intro rest tried le _; simp [scanTried, scanErr]
  | cons u us ih =>
    intro rest tried le h
    have hu := h u (List.mem_cons_self u us)
    have hrest : ∀ v ∈ us, (attempt world jl v).isSoft = true :=
      fun v hv => h v (List.mem_cons_of_mem _ hv)
    by_cases hmem : u ∈ tried
    · rw [List.cons_append, fetchRun, if_pos hmem, scanTried, if_pos hmem,
        scanErr, if_pos hmem]
      exact ih rest tried le hrest
    · cases ha : attempt world jl u with
      | success j => rw [ha] at hu; simp [AttemptOut.isSoft] at hu
      | abort => rw [ha] at hu; simp [AttemptOut.isSoft] at hu
      | soft e =>
        rw [List.cons_append, fetchRun, if_neg hmem, ha, scanTried,
          if_neg hmem, scanErr, if_neg hmem, ha]
        exact ih rest (tried ++ [u]) (some e) hrest

/-- The trace of attempted URLs is always the first-occurrence dedup of
a prefix of the remaining candidates, appended to the accumulator. -/
theorem fetchRun_trace (world : String → WorldOutcome)
    (jl : String → Option Json) (tx : String) (us : List String) :
    ∀ tried le, ∃ n,
      (fetchRun world jl tx us tried le).2 = scanTried tried (us.take n) := by
  induction us with
  | nil => intro tried le; exact ⟨0, rfl⟩
  | cons u us ih =>
    intro tried le
    by_cases hmem : u ∈ tried
    · rcases ih tried le with ⟨n, hn⟩
      refine ⟨n + 1, ?_⟩
      rw [List.take_succ_cons, scanTried, if_pos hmem, fetchRun, if_pos hmem, hn]
    · cases ha : attempt world jl u with
      | success j =>
        refine ⟨1, ?_⟩
        rw [List.take_succ_cons, List.take_zero, fetchRun, if_neg hmem, ha,
          scanTried, if_neg hmem, scanTried]
      | abort =>
        refine ⟨1, ?_⟩
        rw [List.take_succ_cons, List.take_zero, fetchRun, if_neg hmem, ha,
          scanTried, if_neg hmem, scanTried]
      | soft e =>
        rcases ih (tried ++ [u]) (some e) with ⟨n, hn⟩
        refine ⟨n + 1, ?_⟩
        rw [List.take_succ_cons, scanTried, if_neg hmem, fetchRun, if_neg hmem,
          ha, hn]

/-- Every member of a list is an inner segment of its Python join. -/
theorem pyJoin_mem_seg (sep : String) (l : List String) (u : String) :
    u ∈ l → ∃ a b, (pyJoin sep l).data = a ++ u.data ++ b := by
  induction l with
  | nil => intro h; simp at h
  | cons x xs ih =>
    intro h
    cases xs with
    | nil =>
      rcases List.mem_singleton.mp h with rfl
      exact ⟨[], [], by simp [pyJoin]⟩
    | cons y ys =>
      rcases List.mem_cons.mp h with rfl | h
      · refine ⟨[], (sep ++ pyJoin sep (y :: ys)).data, ?_⟩
        rw [pyJoin]
        rw [strDataAppend, strDataAppend, strDataAppend]
        simp [List.append_assoc]
      · rcases ih h with ⟨a, b, hab⟩
        refine ⟨(x ++ sep).data ++ a, b, ?_⟩
        rw [pyJoin]
        rw [strDataAppend, strDataAppend]
        rw [hab]
        simp [List.append_assoc, strDataAppend]

/-- Every tried URL is an inner segment of the NotFound message. -/
theorem notFoundMsg_mem_seg (tx : String) (tried : List String)
    (le : Option LastErr) (u : String) (h : u ∈ tried) :
    ∃ a b, (notFoundMsg tx tried le).data = a ++ u.data ++ b := by
  rcases pyJoin_mem_seg "\n  " tried u h with ⟨a, b, hab⟩
  refine ⟨("Failed to fetch proof JSON for TX ID " ++ tx
      ++ ". Tried URLs:\n  ").data ++ a,
    b ++ (match le with
          | none => ""
          | some e => "\nLast error: " ++ reprLastErr e).data, ?_⟩
  rw [notFoundMsg.eq_def]
  rw [strDataAppend, strDataAppend, strDataAppend, strDataAppend, hab]
  simp [List.append_assoc]

/-! ## Claim theorems -/

/-- C7: for every text, the fingerprint function is total and
deterministic, and its result is the SHA-256 digest of the text's UTF-8
byte encoding rendered as exactly 64 lowercase hexadecimal
characters. -/
theorem c7_fingerprint_deterministic_lowercase_hex (t : String) :
    sha256_from_text t = String.mk (hexOfBytes (sha256Bytes (utf8Encode t)))
    ∧ (sha256_from_text t).length = 64
    ∧ (∀ c ∈ (sha256_from_text t).data, c ∈ hexDigits)
    ∧ (∀ t' : String, t = t' → sha256_from_text t = sha256_from_text t') := by
  refine ⟨rfl, sha256_from_text_length t, ?_, ?_⟩
  · intro c hc
    exact hexOfBytes_mem _ _ hc
  · intro t' ht
    rw [ht]

/-- Witness for C7 at `"hello"`: both inner hypotheses discharged. -/
theorem c7_witness :
    (sha256_from_text "hello").length = 64
    ∧ sha256_from_text "hello" = sha256_from_text "hello" :=
  ⟨(c7_fingerprint_deterministic_lowercase_hex "hello").2.1,
   (c7_fingerprint_deterministic_lowercase_hex "hello").2.2.2 "hello" rfl⟩

/-- C2: every report returned by `verify_proof` has
`verified = prompt_ok AND output_ok`; in particular it is never true
while either individual flag is false. -/
theorem c2_verified_iff_both_flags (world : String → WorldOutcome)
    (jl : String → Option Json) (tx prompt output : String) (r : Report)
    (h : verify_proof world jl tx prompt output = .report r) :
    r.verified = (r.prompt_ok && r.output_ok) := by
  unfold verify_proof at h
  cases hf : fetch_proof_json world jl DEFAULT_GATEWAYS tx with
  | ok j =>
    rw [hf] at h
    cases j with
    | obj fields =>
      simp only [VerifyOutcome.report.injEq] at h
      rw [← h]
      rfl
    | null => simp at h
    | bool b => simp at h
    | num n => simp at h
    | str s => simp at h
    | arr l => simp at h
  | runtimeError m => rw [hf] at h; simp at h
  | unicodeError => rw [hf] at h; simp at h

/-- Witness for C2: a world serving an empty record yields a report,
and its flags satisfy the equation. -/
theorem c2_witness :
    (buildReport [] "t" "p" "o").verified
      = ((buildReport [] "t" "p" "o").prompt_ok
          && (buildReport [] "t" "p" "o").output_ok) :=
  c2_verified_iff_both_flags wRawObj jsonLoads "t" "p" "o"
    (buildReport [] "t" "p" "o") rfl

/-- C4: a stored hash field that is absent, empty, or differently cased
than the locally recomputed lowercase digest makes the corresponding
match flag false, and the report is still assembled normally. -/
theorem c4_missing_stored_hash_non_matching
    (proof : List (String × Json)) (tx prompt output : String) :
    (missingLike (dictGet "prompt_hash" proof) (sha256_from_text prompt) →
        (buildReport proof tx prompt output).prompt_ok = false)
    ∧ (missingLike (dictGet "output_hash" proof) (sha256_from_text output) →
        (buildReport proof tx prompt output).output_ok = false)
    ∧ (buildReport proof tx prompt output).tx_id = tx := by
  refine ⟨?_, ?_, rfl⟩
  · intro h
    exact pyEqStr_missingLike _ _ h
  · intro h
    exact pyEqStr_missingLike _ _ h

/-- Witness for C4: a record storing an empty prompt hash and an
uppercase output hash; both flags are false. -/
theorem c4_witness :
    ((buildReport
        [("prompt_hash", Json.str ""),
         ("output_hash", Json.str
           "486EA46224D1BB4FB680F34F7C9AD96A8F24EC88BE73EA8E5A6C65260E9CB8A7")]
        "t" "hello" "world").prompt_ok = false)
    ∧ ((buildReport
        [("prompt_hash", Json.str ""),
         ("output_hash", Json.str
           "486EA46224D1BB4FB680F34F7C9AD96A8F24EC88BE73EA8E5A6C65260E9CB8A7")]
        "t" "hello" "world").output_ok = false) :=
  ⟨(c4_missing_stored_hash_non_matching _ "t" "hello" "world").1
      (Or.inr (Or.inl rfl)),
   (c4_missing_stored_hash_non_matching _ "t" "hello" "world").2.1
      (Or.inr (Or.inr
        ⟨"486EA46224D1BB4FB680F34F7C9AD96A8F24EC88BE73EA8E5A6C65260E9CB8A7",
         rfl, rfl, by decide⟩))⟩

/-- C6: when every candidate URL soft-fails, `fetch_proof_json` raises
the `RuntimeError` whose message enumerates every attempted URL in
order plus the last underlying error (the error of the last URL
attempted). -/
theorem c6_notfound_enumerates_urls (world : String → WorldOutcome)
    (jl : String → Option Json) (gateways : List String) (tx : String)
    (h : ∀ v ∈ candidateUrls gateways tx, (attempt world jl v).isSoft = true) :
    fetch_proof_json world jl gateways tx
      = .runtimeError (notFoundMsg tx (triedAll gateways tx)
          (lastSoftErr world jl gateways tx))
    ∧ ∀ u ∈ candidateUrls gateways tx, ∃ a b,
        (notFoundMsg tx (triedAll gateways tx)
          (lastSoftErr world jl gateways tx)).data = a ++ u.data ++ b := by
  constructor
  · have h1 := fetchRun_soft_scan world jl tx (candidateUrls gateways tx)
      [] [] none h
    rw [List.append_nil] at h1
    unfold fetch_proof_json fetchProofRun
    rw [h1, fetchRun, scanTried_eq, scanErr_eq]
    simp [triedAll, dedupFirst, lastSoftErr]
  · intro u hu
    apply notFoundMsg_mem_seg
    unfold triedAll dedupFirst
    exact (dedupFirstAux_mem _ _ _).mpr ⟨hu, by simp⟩

/-- Witness for C6: one gateway, all transport failures; the theorem's
hypothesis is discharged by evaluation. -/
theorem c6_witness :
    fetch_proof_json wTransport jsonLoads ["https://g"] "t"
      = .runtimeError (notFoundMsg "t" (triedAll ["https://g"] "t")
          (lastSoftErr wTransport jsonLoads ["https://g"] "t")) :=
  (c6_notfound_enumerates_urls wTransport jsonLoads ["https://g"] "t"
    (by decide)).1

/-- C9: the URLs actually attempted are always the first-occurrence
deduplication of a prefix of the substituted candidate list, contain no
duplicates, and all come from the candidate list; a later candidate
collapsing to an already-tried URL is skipped. -/
theorem c9_dedup_ordered_attempts (world : String → WorldOutcome)
    (jl : String → Option Json) (gateways : List String) (tx : String) :
    ∃ n, (fetchProofRun world jl gateways tx).2
        = dedupFirst ((candidateUrls gateways tx).take n)
      ∧ ((fetchProofRun world jl gateways tx).2).Nodup
      ∧ ∀ u ∈ (fetchProofRun world jl gateways tx).2,
          u ∈ candidateUrls gateways tx := by
  rcases fetchRun_trace world jl tx (candidateUrls gateways tx) [] none
    with ⟨n, hn⟩
  have htr : (fetchProofRun world jl gateways tx).2
      = dedupFirstAux [] ((candidateUrls gateways tx).take n) := by
    unfold fetchProofRun
    rw [hn, scanTried_eq]
    simp
  refine ⟨n, ?_, ?_, ?_⟩
  · rw [htr]; rfl
  · rw [htr]; exact dedupFirstAux_nodup _ _
  · intro u hu
    rw [htr] at hu
    have := ((dedupFirstAux_mem _ _ _).mp hu).1
    exact List.take_subset n _ this

/-- C5 counterexample: the first candidate's body is a 2xx response
whose bytes are not UTF-8 (an outcome in which its fetch-and-decode
does not succeed), a later candidate would decode to a record, yet the
fetcher returns an uncaught `UnicodeDecodeError` instead of that
record. -/
theorem c5_counterexample :
    fetch_proof_json wMixed jsonLoads ["https://a", "https://b"] "t"
      = FetchResult.unicodeError
    ∧ attempt wMixed jsonLoads "https://b/t" = .success (Json.obj [])
    ∧ "https://b/t" ∈ candidateUrls ["https://a", "https://b"] "t" :=
  ⟨rfl, rfl, by decide⟩

/-- C5 amended: provided every earlier candidate fails with a caught
soft failure (transport error, or a UTF-8 body that is not JSON), the
fetcher returns the record of the first URL whose fetch and decode
succeed, and its attempt trace stops at that URL. -/
theorem c5_amended_first_success (world : String → WorldOutcome)
    (jl : String → Option Json) (gateways : List String) (tx : String)
    (us₁ : List String) (u : String) (us₂ : List String) (j : Json)
    (hsplit : candidateUrls gateways tx = us₁ ++ u :: us₂)
    (hsoft : ∀ v ∈ us₁, (attempt world jl v).isSoft = true)
    (hsucc : attempt world jl u = .success j) :
    fetchProofRun world jl gateways tx = (.ok j, dedupFirst us₁ ++ [u]) := by
  unfold fetchProofRun
  rw [hsplit, fetchRun_soft_scan world jl tx us₁ (u :: us₂) [] none hsoft]
  have hmem : u ∉ scanTried [] us₁ := by
    rw [scanTried_eq]
    simp only [List.nil_append]
    intro hu
    have h1 := ((dedupFirstAux_mem us₁ [] u).mp hu).1
    have hs := hsoft u h1
    rw [hsucc] at hs
    simp [AttemptOut.isSoft] at hs
  rw [fetchRun, if_neg hmem, hsucc, scanTried_eq]
  rfl

/-- Witness for C5 amended: the first URL soft-fails with a transport
error, the second succeeds, the third is never attempted. -/
theorem c5_amended_witness :
    fetchProofRun wFirstFails jsonLoads ["https://g"] "t"
      = (.ok (Json.obj []), ["https://g/t", "https://g/tx/t/data"]) :=
  c5_amended_first_success wFirstFails jsonLoads ["https://g"] "t"
    ["https://g/t"] "https://g/tx/t/data" ["https://g/t/data"] (Json.obj [])
    rfl (by decide) rfl

/-- C1 counterexample: `"e30="` is the base64 wrapping of the raw JSON
record `"\x7b\x7d"`; the raw payload decodes to the record but the
base64-wrapped payload makes every candidate soft-fail, so the two do
not decode to the same record — there is no base64 fallback. -/
theorem c1_counterexample :
    base64OfString "\x7b\x7d" = "e30="
    ∧ fetch_proof_json wRawObj jsonLoads ["https://g"] "t" = .ok (.obj [])
    ∧ (fetch_proof_json wB64 jsonLoads ["https://g"] "t").isOk = false :=
  ⟨rfl, rfl, rfl⟩

/-- C1 amended: the decode step parses the body directly as JSON text
only; any body that fails direct JSON parsing — even one that is the
base64 wrapping of a valid record — is a soft decode failure for that
URL, with no base64 fallback attempted. -/
theorem c1_amended_direct_json_only (world : String → WorldOutcome)
    (jl : String → Option Json) (url : String) (bs : List Nat) (s : String)
    (hb : world url = .body bs) (hd : utf8Decode bs = some s)
    (hj : jl s = none) :
    attempt world jl url = .soft (.jsonError s) := by
  unfold attempt
  rw [hb]
  simp [hd, hj]

/-- Witness for C1 amended: the base64-wrapped body `"e30="` is a soft
JSON decode failure. -/
theorem c1_amended_witness :
    attempt wB64 jsonLoads "https://g/t" = .soft (.jsonError "e30=") :=
  c1_amended_direct_json_only wB64 jsonLoads "https://g/t"
    (utf8Encode "e30=") "e30=" rfl rfl rfl

/-- C3 counterexample: a 2xx response whose body bytes are not valid
UTF-8 makes `fetch_proof_json` raise the uncaught
`UnicodeDecodeError` — neither a successful return nor the `NotFound`
`RuntimeError`. -/
theorem c3_counterexample :
    fetch_proof_json wBadBytes jsonLoads ["https://g"] "t"
      = FetchResult.unicodeError
    ∧ (fetch_proof_json wBadBytes jsonLoads ["https://g"] "t").isRuntimeError
        = false
    ∧ (fetch_proof_json wBadBytes jsonLoads ["https://g"] "t").isOk = false :=
  ⟨rfl, rfl, rfl⟩

/-- The loop never aborts when no attempted URL yields non-UTF-8
bytes. -/
theorem fetchRun_no_abort (world : String → WorldOutcome)
    (jl : String → Option Json) (tx : String) (us : List String) :
    ∀ tried le, (∀ v ∈ us, (attempt world jl v).isAbort = false) →
      ((fetchRun world jl tx us tried le).1).isUnicodeErr = false := by
  induction us with
  | nil => intro tried le _; rfl
  | cons u us ih =>
    intro tried le h
    have hu := h u (List.mem_cons_self u us)
    have hrest : ∀ v ∈ us, (attempt world jl v).isAbort = false :=
      fun v hv => h v (List.mem_cons_of_mem _ hv)
    by_cases hmem : u ∈ tried
    · rw [fetchRun, if_pos hmem]; exact ih tried le hrest
    · cases ha : attempt world jl u with
      | success j => rw [fetchRun, if_neg hmem, ha]; rfl
      | abort => rw [ha] at hu; simp [AttemptOut.isAbort] at hu
      | soft e => rw [fetchRun, if_neg hmem, ha]; exact ih _ _ hrest

/-- C3 amended: transport failures and JSON decode failures of
UTF-8-decodable bodies are recovered locally inside the fallback loop;
as long as no attempted body is invalid UTF-8, the only failure
crossing the boundary is the final `RuntimeError`. A 2xx body that is
not valid UTF-8, however, escapes as an uncaught
`UnicodeDecodeError`. -/
theorem c3_amended_soft_failures_recovered (world : String → WorldOutcome)
    (jl : String → Option Json) (gateways : List String) (tx : String)
    (h : ∀ v ∈ candidateUrls gateways tx, (attempt world jl v).isAbort = false) :
    ((fetch_proof_json world jl gateways tx)).isUnicodeErr = false :=
  fetchRun_no_abort world jl tx (candidateUrls gateways tx) [] none h

/-- Witness for C3 amended: all-transport world, hypothesis discharged
by evaluation. -/
theorem c3_amended_witness :
    ((fetch_proof_json wTransport jsonLoads ["https://g"] "t")).isUnicodeErr
      = false :=
  c3_amended_soft_failures_recovered wTransport jsonLoads ["https://g"] "t"
    (by decide)

/-- C8 counterexample: a payload that parses as a bare JSON array is
accepted and returned as-is by the fetcher, although it is not a
structured record. -/
theorem c8_counterexample :
    fetch_proof_json wArr jsonLoads ["https://g"] "t"
      = .ok (.arr [.num 1])
    ∧ Json.isObj (.arr [.num 1]) = false :=
  ⟨rfl, rfl⟩

/-- C8 amended: the fetcher returns whatever JSON value the first
successfully parsed body yields — object or not — performing no shape
validation; only parse failures cause fallback or the final error. -/
theorem c8_amended_any_json_value (jl : String → Option Json)
    (bs : List Nat) (s : String) (j : Json) (tx : String)
    (hd : utf8Decode bs = some s) (hj : jl s = some j) :
    fetch_proof_json (fun _ => .body bs) jl ["https://g"] tx = .ok j := by
  unfold fetch_proof_json fetchProofRun candidateUrls url_patterns
  simp only [List.flatMap_cons, List.map_cons, List.map_nil,
    List.flatMap_nil, List.append_nil]
  rw [fetchRun, if_neg (by simp)]
  simp [attempt, hd, hj]

/-- Witness for C8 amended: a bare array value is returned unchanged. -/
theorem c8_amended_witness :
    fetch_proof_json (fun _ => .body (utf8Encode "[1]")) jsonLoads
      ["https://g"] "t" = .ok (.arr [.num 1]) :=
  c8_amended_any_json_value jsonLoads (utf8Encode "[1]") "[1]"
    (.arr [.num 1]) "t" rfl rfl

/-- C10: for the gateway base `"https://tx.example.com"`, the URL
actually requested is not the plain substitution of the TX id into the
pattern — the global `"//tx"` to `"/tx"` replacement corrupts the
scheme separator. -/
theorem c10_url_replace_corrupts_scheme :
    (fetchProofRun wTransport jsonLoads ["https://tx.example.com"] "abc").2.head?
      = some "https:/tx.example.com/abc"
    ∧ (candidateUrls ["https://tx.example.com"] "abc").head?
      = some "https:/tx.example.com/abc"
    ∧ formatPattern "{base}/{tx}" (rstripSlash "https://tx.example.com") "abc"
      = "https://tx.example.com/abc"
    ∧ "https:/tx.example.com/abc" ≠ "https://tx.example.com/abc" :=
  ⟨rfl, rfl, rfl, by decide⟩

end PromptGenix
